import Mathlib

/-!
Verification of the deposit-verification and balance-settlement pipeline
(`src/app/api/verify-slip/route.ts`).

The route is embedded shallowly:

* the EasySlip provider payload becomes `EasySlipResponse` (optional fields
  become `Option`; a JS `undefined` string field is `none`, and the required
  `transRef : string` field uses `""` for the absent/empty — both falsy — cases);
* the settlement store (the `paymentTransactions` and `userBalances` tables)
  becomes the `Store` structure; `users` and `depositLimits` reference data
  become `Env`;
* monetary amounts (JS `number`s, stored as numeric strings in the DB and
  converted back with `Number(...)`) are modelled as `Int`;
* timestamps are `Nat` (milliseconds); the route's `new Date()` /
  local-midnight computation is passed in as the parameters `now` and
  `todayStart`;
* `async`/`await` plus the surrounding `try`/`catch` become `Except`-valued
  functions, threaded sequentially; `db.transaction` applies both of its
  effects in one step of the state;
* the two external effects the handler performs besides the store — the
  provider `fetch` and `sendDepositNotification` — are modelled by the
  parameters `provider : ProviderOutcome` (what the fetch produced) and
  `notifyThrows : Bool` (whether the dispatch call throws), and the list of
  dispatched notification payloads is returned so that "no notification was
  sent" is observable.
-/

namespace VerifySlip

/-- Account-holder name `{ th?: string; en?: string }` of a party. -/
structure AccountName where
  th : Option String
  en : Option String
deriving DecidableEq, Repr

/-- Direct bank-account identifier
`{ type: 'BANKAC' | 'TOKEN' | 'DUMMY'; account: string }` of a party (the
discriminated union of type codes is kept as the raw string). -/
structure BankRef where
  type : String
  account : String
deriving DecidableEq, Repr

/-- Tokenized/proxy identifier `{ type: 'NATID' | ...; account: string }`. -/
structure ProxyRef where
  type : String
  account : String
deriving DecidableEq, Repr

/-- The `account` member `{ name: {...}; bank?: {...}; proxy?: {...} }` of a
sender or receiver. `name` is accessed with optional chaining (`receiver.name?.th`), so
it is modelled as optional. -/
structure PartyAccount where
  name : Option AccountName
  bank : Option BankRef
  proxy : Option ProxyRef
deriving DecidableEq, Repr

/-- A sender or receiver: `{ bank: { id: ... }; account: {...} }`.  The route
reads the receiver through `data.data?.receiver?.account`, so a missing
`receiver` and a missing `receiver.account` behave identically; both are
modelled by `account = none`. -/
structure Party where
  bankId : String
  account : Option PartyAccount
deriving DecidableEq, Repr

/-- The `data` member of a successful EasySlip verification. Fields the route
never reads (`payload`, `date`, `countryCode`, `fee`, `ref1..3`, the local
amount, `merchantId`) are omitted from the embedding. -/
structure SlipData where
  transRef : String
  amount : Int
  sender : Party
  receiver : Party
deriving DecidableEq, Repr

/-- The provider response `EasySlipResponse = { status; data?; message? }`. -/
structure EasySlipResponse where
  status : Int
  data : Option SlipData
  message : Option String
deriving DecidableEq, Repr

/-- The hardcoded `EXPECTED_RECEIVER` merchant identity. -/
structure ExpectedReceiver where
  nameTh : String
  nameEn : String
  account : String
  type : String
deriving DecidableEq, Repr

def EXPECTED_RECEIVER : ExpectedReceiver :=
  { nameTh := "บจก. เอ็กซ์เพิร์ท เ"
    nameEn := "EXPERT 8"
    account := "XXX-X-XX730-5"
    type := "BANKAC" }

/-- Source `validateReceiver(data)`: accepts exactly when the receiver account is
present and its Thai name, English name, bank-identifier type and account
number all equal `EXPECTED_RECEIVER`.  A missing `name`, missing `th`/`en`,
or missing `bank` yields JS `undefined`, which is `!==` any expected string;
this is the `none ≠ some _` case of the `Option` comparisons. -/
def validateReceiver (data : EasySlipResponse) : Bool :=
  match data.data with
  | none => false
  | some d =>
    match d.receiver.account with
    | none => false
    | some receiver =>
      if receiver.name.bind AccountName.th ≠ some EXPECTED_RECEIVER.nameTh ∨
         receiver.name.bind AccountName.en ≠ some EXPECTED_RECEIVER.nameEn then
        false
      else if receiver.bank.map BankRef.type ≠ some EXPECTED_RECEIVER.type ∨
              receiver.bank.map BankRef.account ≠ some EXPECTED_RECEIVER.account then
        false
      else
        true

/-- One row of the `paymentTransactions` table, with the columns this route
writes or reads.  `total` and `amount` are stored as `amount.toString()` and
read back with `Number(...)`; they are modelled as the `Int` itself. -/
structure PaymentTransaction where
  status : String
  statusName : String
  total : Int
  amount : Int
  userId : Int
  method : String
  transRef : String
  merchantId : String
  orderNo : String
  refNo : String
  productDetail : String
  createdAt : Nat
  updatedAt : Nat
  paymentDate : Nat
deriving DecidableEq, Repr

/-- One row of the `userBalances` table (one row per user). -/
structure UserBalance where
  userId : Int
  balance : Int
  updatedAt : Nat
deriving DecidableEq, Repr

/-- The mutable settlement store: the two tables this route writes. -/
structure Store where
  paymentTransactions : List PaymentTransaction
  userBalances : List UserBalance
deriving DecidableEq, Repr

/-- A `depositLimits` row: a named tier with a daily ceiling (stored as a
numeric string, read back with `Number(...)`, modelled as `Int`). -/
structure DepositLimit where
  id : Int
  dailyLimit : Int
deriving DecidableEq, Repr

/-- A `users` row, with the columns this route reads. -/
structure User where
  id : Int
  name : Option String
  email : String
  depositLimitId : Option Int
deriving DecidableEq, Repr

/-- Immutable reference data: the `users` and `depositLimits` tables. -/
structure Env where
  users : List User
  depositLimits : List DepositLimit
deriving DecidableEq, Repr

/-- Source `checkSlipAlreadyUsed(transRef)`: `select ... where transRef = ? limit 1`
is non-empty iff some row with that `transRef` exists. -/
def checkSlipAlreadyUsed (store : Store) (transRef : String) : Bool :=
  store.paymentTransactions.any (fun t => t.transRef == transRef)

/-- The `COALESCE(sum(amount), '0')` over the user's `paymentTransactions`
rows with `createdAt >= today` (local midnight), converted with `Number(...)`. -/
def todayDepositsTotal (store : Store) (userId : Int) (todayStart : Nat) : Int :=
  ((store.paymentTransactions.filter
      (fun t => t.userId == userId && decide (todayStart ≤ t.createdAt))).map
    (fun t => t.amount)).sum

/-- The `{ allowed: boolean; message?: string }` result of `checkDepositLimits`. -/
structure DepositCheck where
  allowed : Bool
  message : Option String
deriving DecidableEq, Repr

/-- Source `checkDepositLimits(userId, amount)`.  The left join resolves the user's
`depositLimitId` against `depositLimits`; `if (!user.depositLimit)` rejects
with `'No deposit limit set for user'`.  If the `users` row itself is absent
the destructuring `const [user] = ...` yields `undefined` and
`user.depositLimit` throws a `TypeError` — the `Except.error` case.  The
over-limit message interpolates `dailyLimit.toLocaleString()`; locale digit
grouping is not modelled, the plain decimal rendering is used. -/
def checkDepositLimits (env : Env) (store : Store) (userId : Int) (amount : Int)
    (todayStart : Nat) : Except String DepositCheck :=
  match env.users.find? (fun u => u.id == userId) with
  | none => Except.error "TypeError: user row not found"
  | some u =>
    match u.depositLimitId.bind
        (fun lid => env.depositLimits.find? (fun l => l.id == lid)) with
    | none => Except.ok { allowed := false, message := some "No deposit limit set for user" }
    | some limit =>
      let dailyTotalAmount := todayDepositsTotal store userId todayStart
      let newDailyTotal := dailyTotalAmount + amount
      if newDailyTotal > limit.dailyLimit then
        Except.ok { allowed := false
                    message := some ("Deposit would exceed daily limit of ฿" ++
                      toString limit.dailyLimit) }
      else
        Except.ok { allowed := true, message := none }

/-- Source `recordVerifiedSlip(transRef, amount, userId)`: throws
`'User ID is required'` on a JS-falsy `userId` (`null` or `0`), otherwise runs
one `db.transaction` that inserts the `paymentTransactions` row and adds
`amount` to the user's `userBalances` row, as a single step of the store. -/
def recordVerifiedSlip (transRef : String) (amount : Int) (userId : Option Int)
    (now : Nat) (store : Store) : Except String Store :=
  match userId with
  | none => Except.error "User ID is required"
  | some uid =>
    if uid == 0 then Except.error "User ID is required"
    else Except.ok
      { paymentTransactions := store.paymentTransactions ++
          [{ status := "CP"
             statusName := "ชำระเงินสำเร็จ"
             total := amount
             amount := amount
             userId := uid
             method := "BANK"
             transRef := transRef
             merchantId := ""
             orderNo := transRef
             refNo := transRef
             productDetail := "เติมเงินผ่านการโอนเงิน"
             createdAt := now
             updatedAt := now
             paymentDate := now }]
        userBalances := store.userBalances.map
          (fun b => if b.userId == uid then
              { b with balance := b.balance + amount, updatedAt := now }
            else b) }

/-- JS `file.type.startsWith('image/')`: string prefix test, computed over the
character lists (extensionally `String.startsWith`, but structurally recursive
so that concrete runs reduce in the kernel). -/
def strStartsWith (s pre : String) : Bool :=
  pre.data.isPrefixOf s.data

/-- The `slip` form field, a `File` with the members the route reads
(`size`, `type`; the bytes are only forwarded to the provider). -/
structure FileData where
  size : Nat
  type : String
deriving DecidableEq, Repr

/-- The multipart form body: the `slip` file field (absent ⇒ `invalid_payload`)
and the user-claimed `amount` field, which the handler never reads. -/
structure FormData where
  slip : Option FileData
  amount : Option String
deriving DecidableEq, Repr

/-- Outcome of the `fetch` to the EasySlip endpoint: the promise rejects
(network error — reaches the outer `catch`), resolves non-2xx
(`!response.ok`), or resolves 2xx with a parsed JSON body. -/
inductive ProviderOutcome where
  | netError : ProviderOutcome
  | httpNotOk : ProviderOutcome
  | ok : EasySlipResponse → ProviderOutcome
deriving DecidableEq, Repr

/-- The `{ userName, amount, transRef }` argument of `sendDepositNotification`. -/
structure NotificationPayload where
  userName : String
  amount : Int
  transRef : String
deriving DecidableEq, Repr

/-- A `NextResponse.json(body, init)` as the client sees it: the transport
status and the JSON body's `status`, `message` and optional `details`. -/
structure ApiResponse where
  httpStatus : Nat
  status : Nat
  message : String
  details : Option String
deriving DecidableEq, Repr

/-- Everything observable about one run of the handler: the response, the
final store, and the notification dispatches that were attempted. -/
structure PostResult where
  response : ApiResponse
  store : Store
  notifications : List NotificationPayload
deriving DecidableEq, Repr

/-- The outer `catch`: `{ status: 500, message: 'server_error' }` with
transport status 500.  Store effects already committed before the throw
persist. -/
def serverErrorResult (store : Store) (sent : List NotificationPayload) : PostResult :=
  { response := { httpStatus := 500, status := 500, message := "server_error", details := none }
    store := store
    notifications := sent }

/-- The `user?.id || null` argument of `recordVerifiedSlip`: `null` when there
is no session, and also when `user.id` is the JS-falsy `0`. -/
def userIdOrNull : Option User → Option Int
  | none => none
  | some u => if u.id == 0 then none else some u.id

/-- The `user.name || user.email` notification field (`name` is falsy when
`null` or the empty string). -/
def userNameOf (u : User) : String :=
  match u.name with
  | some n => if n = "" then u.email else n
  | none => u.email

/-- The tail of the handler shared by the logged-in and anonymous paths:
`await recordVerifiedSlip(...)`, then `if (user) await sendDepositNotification(...)`,
then the success response.  A throw from either lands in the outer `catch`;
a throw from the dispatch happens after the settlement committed. -/
def settleAndNotify (user : Option User) (transRef : String) (amount : Int)
    (notifyThrows : Bool) (now : Nat) (store : Store) : PostResult :=
  match recordVerifiedSlip transRef amount (userIdOrNull user) now store with
  | Except.error _ => serverErrorResult store []
  | Except.ok store' =>
    match user with
    | some u =>
      let payload : NotificationPayload :=
        { userName := userNameOf u, amount := amount, transRef := transRef }
      if notifyThrows then serverErrorResult store' [payload]
      else { response := { httpStatus := 200, status := 200, message := "success", details := none }
             store := store'
             notifications := [payload] }
    | none =>
      { response := { httpStatus := 200, status := 200, message := "success", details := none }
        store := store'
        notifications := [] }

/-- Source `POST(request)`, with its external effects made explicit:
`user` is the `getUser()` result, `form` the parsed form data, `provider`
the outcome of the EasySlip `fetch`, `notifyThrows` whether
`sendDepositNotification` throws, `todayStart`/`now` the clock, and `store`
the settlement store at the start of the request. -/
def POST (env : Env) (user : Option User) (form : FormData)
    (provider : ProviderOutcome) (notifyThrows : Bool)
    (todayStart now : Nat) (store : Store) : PostResult :=
  match form.slip with
  | none =>
    { response := { httpStatus := 400, status := 400, message := "invalid_payload", details := none }
      store := store, notifications := [] }
  | some file =>
    if file.size > 10 * 1024 * 1024 then
      { response := { httpStatus := 400, status := 400, message := "image_size_too_large", details := none }
        store := store, notifications := [] }
    else if ¬ strStartsWith file.type "image/" then
      { response := { httpStatus := 400, status := 400, message := "invalid_image", details := none }
        store := store, notifications := [] }
    else
      match provider with
      | ProviderOutcome.netError => serverErrorResult store []
      | ProviderOutcome.httpNotOk =>
        { response := { httpStatus := 400, status := 400, message := "invalid_slip", details := none }
          store := store, notifications := [] }
      | ProviderOutcome.ok data =>
        match data.data with
        | none =>
          { response := { httpStatus := 400, status := 400, message := "invalid_slip", details := data.message }
            store := store, notifications := [] }
        | some d =>
          if ¬ validateReceiver data then
            { response := { httpStatus := 400, status := 400, message := "invalid_receiver",
                            details := some "Transfer must be to the correct account only" }
              store := store, notifications := [] }
          else if d.transRef ≠ "" then
            if checkSlipAlreadyUsed store d.transRef then
              { response := { httpStatus := 400, status := 400, message := "slip_already_used",
                              details := some "This transfer slip has already been used" }
                store := store, notifications := [] }
            else
              match user with
              | some u =>
                match checkDepositLimits env store u.id d.amount todayStart with
                | Except.error _ => serverErrorResult store []
                | Except.ok depositCheck =>
                  if ¬ depositCheck.allowed then
                    { response := { httpStatus := 400, status := 400, message := "deposit_limit_exceeded",
                                    details := depositCheck.message }
                      store := store, notifications := [] }
                  else
                    settleAndNotify (some u) d.transRef d.amount notifyThrows now store
              | none =>
                settleAndNotify none d.transRef d.amount notifyThrows now store
          else
            { response := { httpStatus := 200, status := 200, message := "success", details := none }
              store := store, notifications := [] }

/-- The user's balance as stored: the `balance` of the first `userBalances`
row with that `userId`, if any. -/
def getBalance (store : Store) (uid : Int) : Option Int :=
  (store.userBalances.find? (fun b => b.userId == uid)).map UserBalance.balance

/-- The row `recordVerifiedSlip` inserts for a given reference, amount, user
and timestamp. -/
def settledRow (transRef : String) (amount : Int) (uid : Int) (now : Nat) :
    PaymentTransaction :=
  { status := "CP", statusName := "ชำระเงินสำเร็จ", total := amount, amount := amount
    userId := uid, method := "BANK", transRef := transRef, merchantId := ""
    orderNo := transRef, refNo := transRef, productDetail := "เติมเงินผ่านการโอนเงิน"
    createdAt := now, updatedAt := now, paymentDate := now }

/-! ### Concrete fixtures, used by witnesses and counterexamples -/

/-- A receiver account that matches `EXPECTED_RECEIVER` exactly. -/
def sampleReceiverAccount : PartyAccount :=
  { name := some { th := some EXPECTED_RECEIVER.nameTh, en := some EXPECTED_RECEIVER.nameEn }
    bank := some { type := EXPECTED_RECEIVER.type, account := EXPECTED_RECEIVER.account }
    proxy := none }

/-- A provider payload paying `a` to the expected merchant under reference `r`. -/
def goodSlipData (r : String) (a : Int) : SlipData :=
  { transRef := r, amount := a
    sender := { bankId := "004", account := none }
    receiver := { bankId := "014", account := some sampleReceiverAccount } }

/-- A 2xx provider response carrying `goodSlipData r a`. -/
def goodResponse (r : String) (a : Int) : EasySlipResponse :=
  { status := 200, data := some (goodSlipData r a), message := none }

/-- A well-formed multipart body: a small PNG and a claimed amount of 100. -/
def goodForm : FormData :=
  { slip := some { size := 1024, type := "image/png" }, amount := some "100" }

/-- An authenticated user assigned deposit-limit tier 7. -/
def aliceUser : User :=
  { id := 1, name := some "Alice", email := "alice@example.com", depositLimitId := some 7 }

/-- Reference data: `aliceUser` and a tier with `dailyLimit = 50000`. -/
def aliceEnv : Env :=
  { users := [aliceUser], depositLimits := [{ id := 7, dailyLimit := 50000 }] }

/-- A store with no transactions and a zero balance row for `aliceUser`. -/
def aliceStore : Store :=
  { paymentTransactions := [], userBalances := [{ userId := 1, balance := 0, updatedAt := 0 }] }

/-- A store in which `aliceUser` has already deposited 48000 today. -/
def aliceStore48000 : Store :=
  { paymentTransactions := [settledRow "OLD" 48000 1 3]
    userBalances := [{ userId := 1, balance := 48000, updatedAt := 3 }] }

/-- An authenticated user with no assigned deposit-limit tier. -/
def bobUser : User :=
  { id := 2, name := none, email := "bob@example.com", depositLimitId := none }

/-- Reference data for `bobUser` (no tiers at all). -/
def bobEnv : Env := { users := [bobUser], depositLimits := [] }

/-- A store with a zero balance row for `bobUser`. -/
def bobStore : Store :=
  { paymentTransactions := [], userBalances := [{ userId := 2, balance := 0, updatedAt := 0 }] }

/-- A 2xx provider response whose payload has an empty `transRef` and no
receiver account. -/
def emptyRefBadReceiverResponse : EasySlipResponse :=
  { status := 200
    data := some { transRef := "", amount := 100
                   sender := { bankId := "004", account := none }
                   receiver := { bankId := "014", account := none } }
    message := none }

/-! ### Helper lemmas -/

/-- Crediting `a` to the `userBalances` row of `uid` (the `update ... where`
of `recordVerifiedSlip`) adds `a` to `getBalance`-view of that user. -/
theorem find?_credit_balance (l : List UserBalance) (uid : Int) (a : Int) (now : Nat) :
    ((l.map (fun b => if b.userId == uid then
        { b with balance := b.balance + a, updatedAt := now } else b)).find?
          (fun b => b.userId == uid)).map UserBalance.balance
      = ((l.find? (fun b => b.userId == uid)).map UserBalance.balance).map (· + a) := by
  induction l with
  | nil => simp
  | cons b l ih =>
    by_cases h : b.userId = uid
    · simp [List.find?_cons, h]
    · have hb : (b.userId == uid) = false := by simpa using h
      simp only [List.map_cons, List.find?_cons, hb, Bool.false_eq_true, if_false]
      exact ih

/-- Unfolding `settleAndNotify` for a logged-in user with a JS-truthy id:
the settlement commits in one step; afterwards the dispatch either throws
(outer `catch`, 500) or the success response is returned. -/
theorem settleAndNotify_user_eq (u : User) (r : String) (a : Int) (nt : Bool)
    (now : Nat) (store : Store) (hid : u.id ≠ 0) :
    settleAndNotify (some u) r a nt now store =
      (let store' : Store :=
        { paymentTransactions := store.paymentTransactions ++ [settledRow r a u.id now]
          userBalances := store.userBalances.map (fun b => if b.userId == u.id then
            { b with balance := b.balance + a, updatedAt := now } else b) }
      if nt then serverErrorResult store' [{ userName := userNameOf u, amount := a, transRef := r }]
      else { response := { httpStatus := 200, status := 200, message := "success", details := none }
             store := store'
             notifications := [{ userName := userNameOf u, amount := a, transRef := r }] }) := by
  have hb : (u.id == 0) = false := by simpa using hid
  simp only [settleAndNotify, userIdOrNull, recordVerifiedSlip, hb, Bool.false_eq_true,
    if_false, settledRow]

/-- Unfolding `POST` down to the settlement tail for a logged-in user when
every guard passes. -/
theorem POST_reaches_settle (env : Env) (u : User) (amt : Option String)
    (file : FileData) (resp : EasySlipResponse) (d : SlipData) (dc : DepositCheck)
    (nt : Bool) (ts now : Nat) (store : Store)
    (hsize : ¬ file.size > 10 * 1024 * 1024)
    (htype : strStartsWith file.type "image/" = true)
    (hdata : resp.data = some d)
    (hrecv : validateReceiver resp = true)
    (href : d.transRef ≠ "")
    (hused : checkSlipAlreadyUsed store d.transRef = false)
    (hlimit : checkDepositLimits env store u.id d.amount ts = Except.ok dc)
    (hallowed : dc.allowed = true) :
    POST env (some u) { slip := some file, amount := amt } (ProviderOutcome.ok resp)
        nt ts now store =
      settleAndNotify (some u) d.transRef d.amount nt now store := by
  simp only [POST, hdata, hsize, htype, hrecv, href, hused, hlimit, hallowed,
    if_false, if_true, not_true, not_false_iff, Bool.false_eq_true, ite_false, ite_true]
  rw [if_pos href]

/-- After the settled row for reference `r` is in the table, the duplicate
guard reports `r` as used. -/
theorem checkSlipAlreadyUsed_after_settle (pts : List PaymentTransaction)
    (ubs : List UserBalance) (r : String) (a : Int) (uid : Int) (now : Nat) :
    checkSlipAlreadyUsed
      { paymentTransactions := pts ++ [settledRow r a uid now], userBalances := ubs } r
      = true := by
  simp [checkSlipAlreadyUsed, settledRow]

/-- With the user's tier resolved to `limit`, `checkDepositLimits` reduces to
the `todayTotal + amount > dailyLimit` comparison. -/
theorem checkDepositLimits_with_tier (env : Env) (store : Store) (uid : Int)
    (a : Int) (ts : Nat) (u : User) (lid : Int) (limit : DepositLimit)
    (hu : env.users.find? (fun x => x.id == uid) = some u)
    (hlid : u.depositLimitId = some lid)
    (hl : env.depositLimits.find? (fun l => l.id == lid) = some limit) :
    checkDepositLimits env store uid a ts =
      (if todayDepositsTotal store uid ts + a > limit.dailyLimit then
        Except.ok { allowed := false
                    message := some ("Deposit would exceed daily limit of ฿" ++
                      toString limit.dailyLimit) }
      else Except.ok { allowed := true, message := none }) := by
  simp only [checkDepositLimits, hu, hlid, Option.some_bind, hl]

/-- With the user's tier absent, `checkDepositLimits` rejects with the
unconfigured message. -/
theorem checkDepositLimits_no_tier (env : Env) (store : Store) (uid : Int)
    (a : Int) (ts : Nat) (u : User)
    (hu : env.users.find? (fun x => x.id == uid) = some u)
    (hlid : u.depositLimitId = none) :
    checkDepositLimits env store uid a ts =
      Except.ok { allowed := false, message := some "No deposit limit set for user" } := by
  simp only [checkDepositLimits, hu, hlid, Option.none_bind]

/-- Appending the settled row adds its amount to the user's same-day total,
provided the insertion time is on or after local midnight. -/
theorem todayDepositsTotal_after_settle (pts : List PaymentTransaction)
    (ubs ubs' : List UserBalance) (uid : Int) (r : String) (a : Int) (ts now : Nat)
    (h : ts ≤ now) :
    todayDepositsTotal
        { paymentTransactions := pts ++ [settledRow r a uid now], userBalances := ubs }
        uid ts
      = todayDepositsTotal { paymentTransactions := pts, userBalances := ubs' } uid ts + a := by
  simp [todayDepositsTotal, settledRow, List.filter_append, h]

/-- Unfolding `POST` down to the `slip_already_used` rejection when the
reference is already recorded. -/
theorem POST_rejects_used_slip (env : Env) (user : Option User) (amt : Option String)
    (file : FileData) (resp : EasySlipResponse) (d : SlipData) (nt : Bool)
    (ts now : Nat) (store : Store)
    (hsize : ¬ file.size > 10 * 1024 * 1024)
    (htype : strStartsWith file.type "image/" = true)
    (hdata : resp.data = some d)
    (hrecv : validateReceiver resp = true)
    (href : d.transRef ≠ "")
    (hused : checkSlipAlreadyUsed store d.transRef = true) :
    POST env user { slip := some file, amount := amt } (ProviderOutcome.ok resp)
        nt ts now store =
      { response := { httpStatus := 400, status := 400, message := "slip_already_used",
                      details := some "This transfer slip has already been used" }
        store := store, notifications := [] } := by
  simp only [POST, hdata, hsize, htype, hrecv, hused, if_false, if_true, not_true,
    not_false_iff, ite_false, ite_true]
  rw [if_pos href]

/-- In every run of the handler, either the store is returned unchanged or the
response is `success` or `server_error`: no rejection ever mutates the store. -/
theorem POST_store_unchanged_or_terminal (env : Env) (user : Option User)
    (form : FormData) (provider : ProviderOutcome) (nt : Bool)
    (ts now : Nat) (store : Store) :
    (POST env user form provider nt ts now store).store = store ∨
    (POST env user form provider nt ts now store).response.message = "success" ∨
    (POST env user form provider nt ts now store).response.message = "server_error" := by
  unfold POST settleAndNotify serverErrorResult
  repeat' split
  all_goals simp_all

/-! ### Claim C1 -/

/-- **C1** (amended: the inserted row's `status` column holds the code's
payment-completed status code `"CP"` — with `statusName` `"ชำระเงินสำเร็จ"` —
not the literal string `"completed"`).  For every submission by an
authenticated user whose slip verifies with amount `d.amount` and reference
`d.transRef`, passes the receiver check, is not a duplicate and is within the
daily limit, the settlement appends exactly one `PaymentTransaction` row —
status `"CP"`, method `"BANK"`, amount and reference the verified ones — and
increases that user's balance by exactly the verified amount; both effects
come from the single `db.transaction` step inside `recordVerifiedSlip`, so
either both are visible or neither is. -/
theorem settlement_appends_one_row_and_credits_balance
    (env : Env) (u : User) (amt : Option String) (file : FileData)
    (resp : EasySlipResponse) (d : SlipData) (dc : DepositCheck)
    (ts now : Nat) (store : Store)
    (hsize : ¬ file.size > 10 * 1024 * 1024)
    (htype : strStartsWith file.type "image/" = true)
    (hdata : resp.data = some d)
    (hrecv : validateReceiver resp = true)
    (href : d.transRef ≠ "")
    (hused : checkSlipAlreadyUsed store d.transRef = false)
    (hlimit : checkDepositLimits env store u.id d.amount ts = Except.ok dc)
    (hallowed : dc.allowed = true)
    (hid : u.id ≠ 0) :
    (POST env (some u) { slip := some file, amount := amt } (ProviderOutcome.ok resp)
        false ts now store).response =
      { httpStatus := 200, status := 200, message := "success", details := none } ∧
    (POST env (some u) { slip := some file, amount := amt } (ProviderOutcome.ok resp)
        false ts now store).store.paymentTransactions =
      store.paymentTransactions ++ [settledRow d.transRef d.amount u.id now] ∧
    (settledRow d.transRef d.amount u.id now).status = "CP" ∧
    (settledRow d.transRef d.amount u.id now).method = "BANK" ∧
    (settledRow d.transRef d.amount u.id now).amount = d.amount ∧
    (settledRow d.transRef d.amount u.id now).transRef = d.transRef ∧
    getBalance (POST env (some u) { slip := some file, amount := amt }
        (ProviderOutcome.ok resp) false ts now store).store u.id =
      (getBalance store u.id).map (· + d.amount) := by
  rw [POST_reaches_settle env u amt file resp d dc false ts now store
    hsize htype hdata hrecv href hused hlimit hallowed,
    settleAndNotify_user_eq u d.transRef d.amount false now store hid]
  refine ⟨rfl, rfl, rfl, rfl, rfl, rfl, ?_⟩
  simpa [getBalance] using find?_credit_balance store.userBalances u.id d.amount now

/-- Witness for C1: Alice deposits 100 under reference `REF1` against an
empty day; the run succeeds, appends the one settled row and credits 100. -/
theorem settlement_appends_one_row_and_credits_balance_witness :
    (POST aliceEnv (some aliceUser) goodForm
        (ProviderOutcome.ok (goodResponse "REF1" 100)) false 0 5 aliceStore).response =
      { httpStatus := 200, status := 200, message := "success", details := none } ∧
    (POST aliceEnv (some aliceUser) goodForm
        (ProviderOutcome.ok (goodResponse "REF1" 100)) false 0 5 aliceStore).store.paymentTransactions =
      aliceStore.paymentTransactions ++ [settledRow "REF1" 100 1 5] ∧
    (settledRow "REF1" 100 1 5).status = "CP" ∧
    (settledRow "REF1" 100 1 5).method = "BANK" ∧
    (settledRow "REF1" 100 1 5).amount = 100 ∧
    (settledRow "REF1" 100 1 5).transRef = "REF1" ∧
    getBalance (POST aliceEnv (some aliceUser) goodForm
        (ProviderOutcome.ok (goodResponse "REF1" 100)) false 0 5 aliceStore).store 1 =
      (getBalance aliceStore 1).map (· + 100) :=
  settlement_appends_one_row_and_credits_balance aliceEnv aliceUser (some "100")
    { size := 1024, type := "image/png" } (goodResponse "REF1" 100)
    (goodSlipData "REF1" 100) { allowed := true, message := none } 0 5 aliceStore
    (by decide) (by decide) rfl (by decide) (by decide) rfl rfl rfl (by decide)

/-- Counterexample to C1 as stated: on a concrete in-limit verified
submission the settlement succeeds and inserts exactly one row, but that
row's `status` is `"CP"`, not `"completed"`. -/
theorem settlement_row_status_is_CP_not_completed :
    (POST aliceEnv (some aliceUser) goodForm
        (ProviderOutcome.ok (goodResponse "REF1" 100)) false 0 5 aliceStore).response.message
      = "success" ∧
    (POST aliceEnv (some aliceUser) goodForm
        (ProviderOutcome.ok (goodResponse "REF1" 100)) false 0 5 aliceStore).store.paymentTransactions.length
      = 1 ∧
    ∀ t ∈ (POST aliceEnv (some aliceUser) goodForm
        (ProviderOutcome.ok (goodResponse "REF1" 100)) false 0 5 aliceStore).store.paymentTransactions,
      t.status = "CP" ∧ ¬ t.status = "completed" := by
  decide

/-! ### Claim C2 -/

/-- **C2**: once a submission bearing reference `d1.transRef` has settled
(`run1`), every later sequential submission bearing the same reference
(`run2`, by any user, with any verified amount) is rejected with
`slip_already_used` and leaves the store exactly as `run1` left it — no
insert, no balance mutation; across the two submissions the user's balance
changes exactly once, by the first verified amount. -/
theorem second_submission_same_transRef_rejected
    (env : Env) (u : User) (user2 : Option User) (amt1 amt2 : Option String)
    (file1 file2 : FileData) (resp1 resp2 : EasySlipResponse) (d1 d2 : SlipData)
    (dc : DepositCheck) (nt2 : Bool) (ts1 now1 ts2 now2 : Nat) (store : Store)
    (run1 run2 : PostResult)
    (hrun1 : run1 = POST env (some u) { slip := some file1, amount := amt1 }
      (ProviderOutcome.ok resp1) false ts1 now1 store)
    (hrun2 : run2 = POST env user2 { slip := some file2, amount := amt2 }
      (ProviderOutcome.ok resp2) nt2 ts2 now2 run1.store)
    (hsize1 : ¬ file1.size > 10 * 1024 * 1024)
    (htype1 : strStartsWith file1.type "image/" = true)
    (hdata1 : resp1.data = some d1)
    (hrecv1 : validateReceiver resp1 = true)
    (href1 : d1.transRef ≠ "")
    (hused1 : checkSlipAlreadyUsed store d1.transRef = false)
    (hlimit1 : checkDepositLimits env store u.id d1.amount ts1 = Except.ok dc)
    (hallowed1 : dc.allowed = true)
    (hid1 : u.id ≠ 0)
    (hsize2 : ¬ file2.size > 10 * 1024 * 1024)
    (htype2 : strStartsWith file2.type "image/" = true)
    (hdata2 : resp2.data = some d2)
    (hrecv2 : validateReceiver resp2 = true)
    (hsame : d2.transRef = d1.transRef) :
    run1.response.message = "success" ∧
    run2.response =
      { httpStatus := 400, status := 400, message := "slip_already_used",
        details := some "This transfer slip has already been used" } ∧
    run2.store = run1.store ∧
    getBalance run1.store u.id = (getBalance store u.id).map (· + d1.amount) ∧
    getBalance run2.store u.id = (getBalance store u.id).map (· + d1.amount) := by
  have e1 : run1 = settleAndNotify (some u) d1.transRef d1.amount false now1 store := by
    rw [hrun1, POST_reaches_settle env u amt1 file1 resp1 d1 dc false ts1 now1 store
      hsize1 htype1 hdata1 hrecv1 href1 hused1 hlimit1 hallowed1]
  rw [settleAndNotify_user_eq u d1.transRef d1.amount false now1 store hid1] at e1
  have href2 : d2.transRef ≠ "" := by rw [hsame]; exact href1
  have hused2 : checkSlipAlreadyUsed run1.store d2.transRef = true := by
    rw [e1, hsame]
    exact checkSlipAlreadyUsed_after_settle _ _ _ _ _ _
  have e2 : run2 =
      { response := { httpStatus := 400, status := 400, message := "slip_already_used",
                      details := some "This transfer slip has already been used" }
        store := run1.store, notifications := [] } := by
    rw [hrun2, POST_rejects_used_slip env user2 amt2 file2 resp2 d2 nt2 ts2 now2
      run1.store hsize2 htype2 hdata2 hrecv2 href2 hused2]
  have hbal : getBalance run1.store u.id = (getBalance store u.id).map (· + d1.amount) := by
    rw [e1]
    simpa [getBalance] using find?_credit_balance store.userBalances u.id d1.amount now1
  refine ⟨by rw [e1]; rfl, by rw [e2], by rw [e2], hbal, ?_⟩
  rw [e2]
  exact hbal

/-- Witness for C2: Alice settles 100 under `REF1`, then resubmits `REF1`
with a different claimed amount; the second run is rejected with
`slip_already_used` and the balance was credited exactly once. -/
theorem second_submission_same_transRef_rejected_witness :
    (POST aliceEnv (some aliceUser) goodForm
        (ProviderOutcome.ok (goodResponse "REF1" 100)) false 0 5 aliceStore).response.message
      = "success" ∧
    (POST aliceEnv (some aliceUser) goodForm
        (ProviderOutcome.ok (goodResponse "REF1" 250)) false 0 9
        (POST aliceEnv (some aliceUser) goodForm
          (ProviderOutcome.ok (goodResponse "REF1" 100)) false 0 5 aliceStore).store).response =
      { httpStatus := 400, status := 400, message := "slip_already_used",
        details := some "This transfer slip has already been used" } ∧
    (POST aliceEnv (some aliceUser) goodForm
        (ProviderOutcome.ok (goodResponse "REF1" 250)) false 0 9
        (POST aliceEnv (some aliceUser) goodForm
          (ProviderOutcome.ok (goodResponse "REF1" 100)) false 0 5 aliceStore).store).store =
      (POST aliceEnv (some aliceUser) goodForm
        (ProviderOutcome.ok (goodResponse "REF1" 100)) false 0 5 aliceStore).store ∧
    getBalance (POST aliceEnv (some aliceUser) goodForm
        (ProviderOutcome.ok (goodResponse "REF1" 100)) false 0 5 aliceStore).store 1 =
      (getBalance aliceStore 1).map (· + 100) ∧
    getBalance (POST aliceEnv (some aliceUser) goodForm
        (ProviderOutcome.ok (goodResponse "REF1" 250)) false 0 9
        (POST aliceEnv (some aliceUser) goodForm
          (ProviderOutcome.ok (goodResponse "REF1" 100)) false 0 5 aliceStore).store).store 1 =
      (getBalance aliceStore 1).map (· + 100) :=
  second_submission_same_transRef_rejected aliceEnv aliceUser (some aliceUser)
    (some "100") (some "100") { size := 1024, type := "image/png" }
    { size := 1024, type := "image/png" } (goodResponse "REF1" 100)
    (goodResponse "REF1" 250) (goodSlipData "REF1" 100) (goodSlipData "REF1" 250)
    { allowed := true, message := none } false 0 5 0 9 aliceStore _ _ rfl rfl
    (by decide) (by decide) rfl (by decide) (by decide) rfl rfl rfl (by decide)
    (by decide) (by decide) rfl (by decide) rfl

/-! ### Claim C3 -/

/-- **C3** (amended: a thrown notification error does change the user-visible
result).  `sendDepositNotification` is awaited inside the handler's single
`try`; if the dispatch throws after the settlement transaction has committed,
control reaches the outer `catch` and the handler responds `server_error`
with status 500 — not `success`/200.  The settlement itself is retained: the
inserted `PaymentTransaction` row and the balance credit persist, and the
dispatch is not retried. -/
theorem notify_throw_yields_server_error_settlement_retained
    (env : Env) (u : User) (amt : Option String) (file : FileData)
    (resp : EasySlipResponse) (d : SlipData) (dc : DepositCheck)
    (ts now : Nat) (store : Store)
    (hsize : ¬ file.size > 10 * 1024 * 1024)
    (htype : strStartsWith file.type "image/" = true)
    (hdata : resp.data = some d)
    (hrecv : validateReceiver resp = true)
    (href : d.transRef ≠ "")
    (hused : checkSlipAlreadyUsed store d.transRef = false)
    (hlimit : checkDepositLimits env store u.id d.amount ts = Except.ok dc)
    (hallowed : dc.allowed = true)
    (hid : u.id ≠ 0) :
    (POST env (some u) { slip := some file, amount := amt } (ProviderOutcome.ok resp)
        true ts now store).response =
      { httpStatus := 500, status := 500, message := "server_error", details := none } ∧
    (POST env (some u) { slip := some file, amount := amt } (ProviderOutcome.ok resp)
        true ts now store).store.paymentTransactions =
      store.paymentTransactions ++ [settledRow d.transRef d.amount u.id now] ∧
    getBalance (POST env (some u) { slip := some file, amount := amt }
        (ProviderOutcome.ok resp) true ts now store).store u.id =
      (getBalance store u.id).map (· + d.amount) ∧
    (POST env (some u) { slip := some file, amount := amt } (ProviderOutcome.ok resp)
        true ts now store).notifications =
      [{ userName := userNameOf u, amount := d.amount, transRef := d.transRef }] := by
  rw [POST_reaches_settle env u amt file resp d dc true ts now store
    hsize htype hdata hrecv href hused hlimit hallowed,
    settleAndNotify_user_eq u d.transRef d.amount true now store hid]
  refine ⟨rfl, rfl, ?_, rfl⟩
  simpa [getBalance, serverErrorResult]
    using find?_credit_balance store.userBalances u.id d.amount now

/-- Witness for C3 (amended): Alice's deposit of 100 settles, the Telegram
dispatch throws, and the run answers `server_error`/500 with the settlement
retained. -/
theorem notify_throw_yields_server_error_settlement_retained_witness :
    (POST aliceEnv (some aliceUser) goodForm
        (ProviderOutcome.ok (goodResponse "REF1" 100)) true 0 5 aliceStore).response =
      { httpStatus := 500, status := 500, message := "server_error", details := none } ∧
    (POST aliceEnv (some aliceUser) goodForm
        (ProviderOutcome.ok (goodResponse "REF1" 100)) true 0 5 aliceStore).store.paymentTransactions =
      aliceStore.paymentTransactions ++ [settledRow "REF1" 100 1 5] ∧
    getBalance (POST aliceEnv (some aliceUser) goodForm
        (ProviderOutcome.ok (goodResponse "REF1" 100)) true 0 5 aliceStore).store 1 =
      (getBalance aliceStore 1).map (· + 100) ∧
    (POST aliceEnv (some aliceUser) goodForm
        (ProviderOutcome.ok (goodResponse "REF1" 100)) true 0 5 aliceStore).notifications =
      [{ userName := userNameOf aliceUser, amount := 100, transRef := "REF1" }] :=
  notify_throw_yields_server_error_settlement_retained aliceEnv aliceUser (some "100")
    { size := 1024, type := "image/png" } (goodResponse "REF1" 100)
    (goodSlipData "REF1" 100) { allowed := true, message := none } 0 5 aliceStore
    (by decide) (by decide) rfl (by decide) (by decide) rfl rfl rfl (by decide)

/-- Counterexample to C3 as stated: on a concrete successful settlement, a
throwing notification dispatch makes the handler answer `server_error` with
HTTP status 500 — not `success` with 200 as the claim states (the settlement
does persist). -/
theorem notify_throw_response_is_not_success :
    (POST aliceEnv (some aliceUser) goodForm
        (ProviderOutcome.ok (goodResponse "REF1" 100)) true 0 5 aliceStore).response.message
      = "server_error" ∧
    (POST aliceEnv (some aliceUser) goodForm
        (ProviderOutcome.ok (goodResponse "REF1" 100)) true 0 5 aliceStore).response.httpStatus
      = 500 ∧
    ¬ (POST aliceEnv (some aliceUser) goodForm
        (ProviderOutcome.ok (goodResponse "REF1" 100)) true 0 5 aliceStore).response.message
      = "success" ∧
    (POST aliceEnv (some aliceUser) goodForm
        (ProviderOutcome.ok (goodResponse "REF1" 100)) true 0 5 aliceStore).store.paymentTransactions.length
      = 1 := by
  decide

/-- Unfolding `POST` down to the `deposit_limit_exceeded` rejection when the
limit check disallows the deposit. -/
theorem POST_rejects_over_limit (env : Env) (u : User) (amt : Option String)
    (file : FileData) (resp : EasySlipResponse) (d : SlipData) (msg : Option String)
    (nt : Bool) (ts now : Nat) (store : Store)
    (hsize : ¬ file.size > 10 * 1024 * 1024)
    (htype : strStartsWith file.type "image/" = true)
    (hdata : resp.data = some d)
    (hrecv : validateReceiver resp = true)
    (href : d.transRef ≠ "")
    (hused : checkSlipAlreadyUsed store d.transRef = false)
    (hlimit : checkDepositLimits env store u.id d.amount ts =
      Except.ok { allowed := false, message := msg }) :
    POST env (some u) { slip := some file, amount := amt } (ProviderOutcome.ok resp)
        nt ts now store =
      { response := { httpStatus := 400, status := 400, message := "deposit_limit_exceeded",
                      details := msg }
        store := store, notifications := [] } := by
  simp only [POST, hdata, hsize, htype, hrecv, hused, hlimit, if_false, if_true,
    not_true, not_false_iff, Bool.false_eq_true, ite_false, ite_true]
  rw [if_pos href]

/-! ### Claim C4 -/

/-- **C4**: for an authenticated user whose tier has daily limit
`limit.dailyLimit` and today's settled total `todayDepositsTotal store u.id ts`,
a provider-verified deposit of `d.amount` is rejected with
`deposit_limit_exceeded` exactly when `total + amount > limit`; when
`total + amount ≤ limit` (equality included) the deposit settles and the
day's total becomes `total + amount`. -/
theorem deposit_limit_check_boundary
    (env : Env) (u : User) (amt : Option String) (file : FileData)
    (resp : EasySlipResponse) (d : SlipData) (lid : Int) (limit : DepositLimit)
    (ts now : Nat) (store : Store)
    (hsize : ¬ file.size > 10 * 1024 * 1024)
    (htype : strStartsWith file.type "image/" = true)
    (hdata : resp.data = some d)
    (hrecv : validateReceiver resp = true)
    (href : d.transRef ≠ "")
    (hused : checkSlipAlreadyUsed store d.transRef = false)
    (hu : env.users.find? (fun x => x.id == u.id) = some u)
    (hlid : u.depositLimitId = some lid)
    (hl : env.depositLimits.find? (fun l => l.id == lid) = some limit)
    (hid : u.id ≠ 0)
    (hts : ts ≤ now) :
    ((POST env (some u) { slip := some file, amount := amt } (ProviderOutcome.ok resp)
        false ts now store).response.message = "deposit_limit_exceeded"
      ↔ todayDepositsTotal store u.id ts + d.amount > limit.dailyLimit) ∧
    (todayDepositsTotal store u.id ts + d.amount ≤ limit.dailyLimit →
      (POST env (some u) { slip := some file, amount := amt } (ProviderOutcome.ok resp)
          false ts now store).response.message = "success" ∧
      todayDepositsTotal (POST env (some u) { slip := some file, amount := amt }
          (ProviderOutcome.ok resp) false ts now store).store u.id ts
        = todayDepositsTotal store u.id ts + d.amount) := by
  have hcl := checkDepositLimits_with_tier env store u.id d.amount ts u lid limit hu hlid hl
  by_cases hgt : todayDepositsTotal store u.id ts + d.amount > limit.dailyLimit
  · rw [if_pos hgt] at hcl
    rw [POST_rejects_over_limit env u amt file resp d _ false ts now store
      hsize htype hdata hrecv href hused hcl]
    exact ⟨iff_of_true rfl hgt, fun hle => absurd hgt (not_lt.mpr hle)⟩
  · rw [if_neg hgt] at hcl
    rw [POST_reaches_settle env u amt file resp d { allowed := true, message := none }
        false ts now store hsize htype hdata hrecv href hused hcl rfl,
      settleAndNotify_user_eq u d.transRef d.amount false now store hid]
    refine ⟨iff_of_false ?_ hgt, fun _ => ⟨rfl, ?_⟩⟩
    · show ¬ ("success" = "deposit_limit_exceeded")
      decide
    exact todayDepositsTotal_after_settle store.paymentTransactions _ store.userBalances
      u.id d.transRef d.amount ts now hts

/-- Witness for C4, the spec's worked example: with `dailyLimit = 50000` and
`todayTotal = 48000`, a verified deposit of 3000 is rejected while 2000
settles, making the day's total exactly 50000. -/
theorem deposit_limit_check_boundary_witness :
    (POST aliceEnv (some aliceUser) goodForm
        (ProviderOutcome.ok (goodResponse "R3000" 3000)) false 0 5 aliceStore48000).response.message
      = "deposit_limit_exceeded" ∧
    (POST aliceEnv (some aliceUser) goodForm
        (ProviderOutcome.ok (goodResponse "R2000" 2000)) false 0 5 aliceStore48000).response.message
      = "success" ∧
    todayDepositsTotal (POST aliceEnv (some aliceUser) goodForm
        (ProviderOutcome.ok (goodResponse "R2000" 2000)) false 0 5 aliceStore48000).store 1 0
      = 50000 := by
  have h3000 := deposit_limit_check_boundary aliceEnv aliceUser (some "100")
    { size := 1024, type := "image/png" } (goodResponse "R3000" 3000)
    (goodSlipData "R3000" 3000) 7 { id := 7, dailyLimit := 50000 } 0 5 aliceStore48000
    (by decide) (by decide) rfl (by decide) (by decide) rfl rfl rfl rfl (by decide)
    (by decide)
  have h2000 := deposit_limit_check_boundary aliceEnv aliceUser (some "100")
    { size := 1024, type := "image/png" } (goodResponse "R2000" 2000)
    (goodSlipData "R2000" 2000) 7 { id := 7, dailyLimit := 50000 } 0 5 aliceStore48000
    (by decide) (by decide) rfl (by decide) (by decide) rfl rfl rfl rfl (by decide)
    (by decide)
  have h2 := h2000.2 (by decide)
  exact ⟨h3000.1.mpr (by decide), h2.1, h2.2.trans (by decide)⟩

/-- Characterization of `validateReceiver` on a response that carries a
payload: it accepts exactly when the receiver account is present and all four
identity fields equal the hardcoded expected-merchant identity. -/
theorem validateReceiver_iff (resp : EasySlipResponse) (d : SlipData)
    (hdata : resp.data = some d) :
    validateReceiver resp = true ↔
      ∃ acc, d.receiver.account = some acc ∧
        acc.name.bind AccountName.th = some EXPECTED_RECEIVER.nameTh ∧
        acc.name.bind AccountName.en = some EXPECTED_RECEIVER.nameEn ∧
        acc.bank.map BankRef.type = some EXPECTED_RECEIVER.type ∧
        acc.bank.map BankRef.account = some EXPECTED_RECEIVER.account := by
  have hv : validateReceiver resp =
      (match d.receiver.account with
       | none => false
       | some receiver =>
         if receiver.name.bind AccountName.th ≠ some EXPECTED_RECEIVER.nameTh ∨
            receiver.name.bind AccountName.en ≠ some EXPECTED_RECEIVER.nameEn then false
         else if receiver.bank.map BankRef.type ≠ some EXPECTED_RECEIVER.type ∨
                 receiver.bank.map BankRef.account ≠ some EXPECTED_RECEIVER.account then false
         else true) := by
    unfold validateReceiver
    rw [hdata]
  rw [hv]
  cases hacc : d.receiver.account with
  | none => simp
  | some acc =>
    constructor
    · intro h
      replace h : (if acc.name.bind AccountName.th ≠ some EXPECTED_RECEIVER.nameTh ∨
            acc.name.bind AccountName.en ≠ some EXPECTED_RECEIVER.nameEn then false
          else if acc.bank.map BankRef.type ≠ some EXPECTED_RECEIVER.type ∨
              acc.bank.map BankRef.account ≠ some EXPECTED_RECEIVER.account then false
          else true) = true := h
      by_cases c1 : acc.name.bind AccountName.th ≠ some EXPECTED_RECEIVER.nameTh ∨
          acc.name.bind AccountName.en ≠ some EXPECTED_RECEIVER.nameEn
      · rw [if_pos c1] at h
        exact absurd h (by decide)
      · by_cases c2 : acc.bank.map BankRef.type ≠ some EXPECTED_RECEIVER.type ∨
            acc.bank.map BankRef.account ≠ some EXPECTED_RECEIVER.account
        · rw [if_neg c1, if_pos c2] at h
          exact absurd h (by decide)
        · push_neg at c1 c2
          exact ⟨acc, rfl, c1.1, c1.2, c2.1, c2.2⟩
    · rintro ⟨acc', heq, h1, h2, h3, h4⟩
      obtain rfl : acc = acc' := Option.some.inj heq
      simp [h1, h2, h3, h4]

/-- Unfolding `POST` down to the `invalid_receiver` rejection when the
receiver check fails on a payload-bearing response. -/
theorem POST_rejects_invalid_receiver (env : Env) (user : Option User)
    (amt : Option String) (file : FileData) (resp : EasySlipResponse) (d : SlipData)
    (nt : Bool) (ts now : Nat) (store : Store)
    (hsize : ¬ file.size > 10 * 1024 * 1024)
    (htype : strStartsWith file.type "image/" = true)
    (hdata : resp.data = some d)
    (hrecv : validateReceiver resp = false) :
    POST env user { slip := some file, amount := amt } (ProviderOutcome.ok resp)
        nt ts now store =
      { response := { httpStatus := 400, status := 400, message := "invalid_receiver",
                      details := some "Transfer must be to the correct account only" }
        store := store, notifications := [] } := by
  simp only [POST, hdata, hsize, htype, hrecv, if_false, if_true, not_true,
    not_false_iff, Bool.false_eq_true, ite_false, ite_true]

/-! ### Claim C5 -/

/-- **C5**: the receiver check accepts exactly when the receiver account's
Thai name, English name, account-identifier type and account number all equal
the hardcoded expected merchant identity (a missing receiver account never
passes, since `undefined` comparisons fail); and whenever it rejects, the
handler answers `invalid_receiver` with the store untouched — whatever the
transfer amount or sender fields of `d` are. -/
theorem receiver_check_exact_match
    (env : Env) (user : Option User) (amt : Option String) (file : FileData)
    (resp : EasySlipResponse) (d : SlipData) (nt : Bool) (ts now : Nat) (store : Store)
    (hsize : ¬ file.size > 10 * 1024 * 1024)
    (htype : strStartsWith file.type "image/" = true)
    (hdata : resp.data = some d) :
    (validateReceiver resp = true ↔
      ∃ acc, d.receiver.account = some acc ∧
        acc.name.bind AccountName.th = some EXPECTED_RECEIVER.nameTh ∧
        acc.name.bind AccountName.en = some EXPECTED_RECEIVER.nameEn ∧
        acc.bank.map BankRef.type = some EXPECTED_RECEIVER.type ∧
        acc.bank.map BankRef.account = some EXPECTED_RECEIVER.account) ∧
    (validateReceiver resp = false →
      POST env user { slip := some file, amount := amt } (ProviderOutcome.ok resp)
          nt ts now store =
        { response := { httpStatus := 400, status := 400, message := "invalid_receiver",
                        details := some "Transfer must be to the correct account only" }
          store := store, notifications := [] }) :=
  ⟨validateReceiver_iff resp d hdata,
   fun hrecv => POST_rejects_invalid_receiver env user amt file resp d nt ts now store
     hsize htype hdata hrecv⟩

/-- Witness for C5: on the concrete matching payload the characterization and
the rejection clause hold (the check accepts here, so the rejection clause is
applied at a payload whose receiver matches). -/
theorem receiver_check_exact_match_witness :
    (validateReceiver (goodResponse "REF1" 100) = true ↔
      ∃ acc, (goodSlipData "REF1" 100).receiver.account = some acc ∧
        acc.name.bind AccountName.th = some EXPECTED_RECEIVER.nameTh ∧
        acc.name.bind AccountName.en = some EXPECTED_RECEIVER.nameEn ∧
        acc.bank.map BankRef.type = some EXPECTED_RECEIVER.type ∧
        acc.bank.map BankRef.account = some EXPECTED_RECEIVER.account) ∧
    (validateReceiver (goodResponse "REF1" 100) = false →
      POST aliceEnv (some aliceUser) goodForm
          (ProviderOutcome.ok (goodResponse "REF1" 100)) false 0 5 aliceStore =
        { response := { httpStatus := 400, status := 400, message := "invalid_receiver",
                        details := some "Transfer must be to the correct account only" }
          store := aliceStore, notifications := [] }) :=
  receiver_check_exact_match aliceEnv (some aliceUser) (some "100")
    { size := 1024, type := "image/png" } (goodResponse "REF1" 100)
    (goodSlipData "REF1" 100) false 0 5 aliceStore (by decide) (by decide) rfl

/-! ### Claim C6 -/

/-- **C6**: every run that ends in one of the rejection messages —
`invalid_payload`, `image_size_too_large`, `invalid_image`, `invalid_slip`,
`invalid_receiver`, `slip_already_used`, or `deposit_limit_exceeded` (which
also carries the no-limit-configured rejection) — leaves the settlement store
unchanged: no `PaymentTransaction` row inserted, no `UserBalance` row mutated. -/
theorem rejected_requests_leave_store_unchanged
    (env : Env) (user : Option User) (form : FormData) (provider : ProviderOutcome)
    (nt : Bool) (ts now : Nat) (store : Store)
    (h : (POST env user form provider nt ts now store).response.message ∈
      ["invalid_payload", "image_size_too_large", "invalid_image", "invalid_slip",
       "invalid_receiver", "slip_already_used", "deposit_limit_exceeded"]) :
    (POST env user form provider nt ts now store).store = store := by
  rcases POST_store_unchanged_or_terminal env user form provider nt ts now store with
    hs | hm | hm
  · exact hs
  · rw [hm] at h
    exact absurd h (by decide)
  · rw [hm] at h
    exact absurd h (by decide)

/-- Witness for C6: a request with no `slip` file is rejected with
`invalid_payload` and the store is unchanged. -/
theorem rejected_requests_leave_store_unchanged_witness :
    (POST aliceEnv (some aliceUser) { slip := none, amount := some "100" }
        (ProviderOutcome.ok (goodResponse "REF1" 100)) false 0 5 aliceStore).store
      = aliceStore :=
  rejected_requests_leave_store_unchanged aliceEnv (some aliceUser)
    { slip := none, amount := some "100" }
    (ProviderOutcome.ok (goodResponse "REF1" 100)) false 0 5 aliceStore (by decide)

/-! ### Claim C7 -/

/-- **C7** (amended: the unconfigured case is rejected and never settled, but
the response reuses the ordinary `deposit_limit_exceeded` message code — there
is no distinct `no_limit_configured` code; the case is distinguished only by
the human-readable details string `"No deposit limit set for user"`).  For an
authenticated user whose `depositLimitId` is null, every submission reaching
the limit check is rejected with that response, the store is unchanged and no
notification is dispatched, whatever the verified amount, receiver or
reference. -/
theorem no_tier_user_always_rejected_never_settled
    (env : Env) (u : User) (amt : Option String) (file : FileData)
    (resp : EasySlipResponse) (d : SlipData) (nt : Bool) (ts now : Nat) (store : Store)
    (hsize : ¬ file.size > 10 * 1024 * 1024)
    (htype : strStartsWith file.type "image/" = true)
    (hdata : resp.data = some d)
    (hrecv : validateReceiver resp = true)
    (href : d.transRef ≠ "")
    (hused : checkSlipAlreadyUsed store d.transRef = false)
    (hu : env.users.find? (fun x => x.id == u.id) = some u)
    (hlid : u.depositLimitId = none) :
    POST env (some u) { slip := some file, amount := amt } (ProviderOutcome.ok resp)
        nt ts now store =
      { response := { httpStatus := 400, status := 400, message := "deposit_limit_exceeded",
                      details := some "No deposit limit set for user" }
        store := store, notifications := [] } :=
  POST_rejects_over_limit env u amt file resp d _ nt ts now store
    hsize htype hdata hrecv href hused
    (checkDepositLimits_no_tier env store u.id d.amount ts u hu hlid)

/-- Witness for C7 (amended): Bob, who has no tier, submits a perfectly valid
slip and is rejected with the reused `deposit_limit_exceeded` code, with the
store untouched. -/
theorem no_tier_user_always_rejected_never_settled_witness :
    POST bobEnv (some bobUser) goodForm (ProviderOutcome.ok (goodResponse "REF2" 100))
        false 0 5 bobStore =
      { response := { httpStatus := 400, status := 400, message := "deposit_limit_exceeded",
                      details := some "No deposit limit set for user" }
        store := bobStore, notifications := [] } :=
  no_tier_user_always_rejected_never_settled bobEnv bobUser (some "100")
    { size := 1024, type := "image/png" } (goodResponse "REF2" 100)
    (goodSlipData "REF2" 100) false 0 5 bobStore
    (by decide) (by decide) rfl (by decide) (by decide) rfl rfl rfl

/-- Counterexample to C7 as stated: on a concrete no-tier submission the
rejection's message code is the ordinary `deposit_limit_exceeded`, not a
distinct `no_limit_configured` classification; only the details string marks
the unconfigured case. -/
theorem no_tier_rejection_reuses_limit_exceeded_code :
    (POST bobEnv (some bobUser) goodForm (ProviderOutcome.ok (goodResponse "REF2" 100))
        false 0 5 bobStore).response.message = "deposit_limit_exceeded" ∧
    ¬ (POST bobEnv (some bobUser) goodForm (ProviderOutcome.ok (goodResponse "REF2" 100))
        false 0 5 bobStore).response.message = "no_limit_configured" ∧
    (POST bobEnv (some bobUser) goodForm (ProviderOutcome.ok (goodResponse "REF2" 100))
        false 0 5 bobStore).response.details = some "No deposit limit set for user" ∧
    (POST bobEnv (some bobUser) goodForm (ProviderOutcome.ok (goodResponse "REF2" 100))
        false 0 5 bobStore).store = bobStore := by
  decide

/-! ### Claim C8 -/

/-- **C8** (amended: the payload must also pass the receiver check, which
runs before the `transRef` test — otherwise the run ends as
`invalid_receiver`).  When the provider responds 2xx with a payload that
passes the receiver check but whose `transRef` is absent/empty, the handler
answers `success`/200 while performing no settlement work at all: the store
is untouched (so neither the duplicate check nor the limit check has any
effect), no row is inserted, no balance changes and no notification is
dispatched. -/
theorem empty_transRef_success_without_settlement
    (env : Env) (user : Option User) (amt : Option String) (file : FileData)
    (resp : EasySlipResponse) (d : SlipData) (nt : Bool) (ts now : Nat) (store : Store)
    (hsize : ¬ file.size > 10 * 1024 * 1024)
    (htype : strStartsWith file.type "image/" = true)
    (hdata : resp.data = some d)
    (hrecv : validateReceiver resp = true)
    (href : d.transRef = "") :
    POST env user { slip := some file, amount := amt } (ProviderOutcome.ok resp)
        nt ts now store =
      { response := { httpStatus := 200, status := 200, message := "success", details := none }
        store := store, notifications := [] } := by
  simp only [POST, hdata, hsize, htype, hrecv, href, if_false, if_true, not_true,
    not_false_iff, ite_false, ite_true]
  rw [if_neg (show ¬ (("" : String) ≠ "") by simp)]

/-- Witness for C8 (amended): a verified payload to the correct receiver with
an empty `transRef` yields `success` with no store change and no
notification. -/
theorem empty_transRef_success_without_settlement_witness :
    POST aliceEnv (some aliceUser) goodForm (ProviderOutcome.ok (goodResponse "" 100))
        false 0 5 aliceStore48000 =
      { response := { httpStatus := 200, status := 200, message := "success", details := none }
        store := aliceStore48000, notifications := [] } :=
  empty_transRef_success_without_settlement aliceEnv (some aliceUser) (some "100")
    { size := 1024, type := "image/png" } (goodResponse "" 100) (goodSlipData "" 100)
    false 0 5 aliceStore48000 (by decide) (by decide) rfl (by decide) rfl

/-- Counterexample to C8 as stated: a 2xx payload with an empty `transRef`
whose receiver does not match is rejected with `invalid_receiver`/400, not
answered with `success`/200 — the claim omits the receiver-check
precondition. -/
theorem empty_transRef_bad_receiver_not_success :
    (POST aliceEnv (some aliceUser) goodForm
        (ProviderOutcome.ok emptyRefBadReceiverResponse) false 0 5 aliceStore).response.message
      = "invalid_receiver" ∧
    ¬ (POST aliceEnv (some aliceUser) goodForm
        (ProviderOutcome.ok emptyRefBadReceiverResponse) false 0 5 aliceStore).response.message
      = "success" ∧
    (POST aliceEnv (some aliceUser) goodForm
        (ProviderOutcome.ok emptyRefBadReceiverResponse) false 0 5 aliceStore).response.httpStatus
      = 400 ∧
    emptyRefBadReceiverResponse.data.map SlipData.transRef = some "" := by
  decide

/-! ### Claim C9 -/

/-- **C9**: the handler never reads the user-claimed `amount` form field —
two requests identical except for that field produce literally the same
response, the same final store and the same notifications, so only the
provider-verified `data.amount.amount` ever enters the limit check and the
settled amount.  The equation holds definitionally because `POST` projects
only the `slip` field out of the form. -/
theorem claimed_amount_field_not_read
    (env : Env) (user : Option User) (slip : Option FileData) (a1 a2 : Option String)
    (provider : ProviderOutcome) (nt : Bool) (ts now : Nat) (store : Store) :
    POST env user { slip := slip, amount := a1 } provider nt ts now store =
    POST env user { slip := slip, amount := a2 } provider nt ts now store := rfl

/-! ### Claim C10 -/

/-- **C10**: with no authenticated session, a slip that verifies, matches the
expected receiver and bears an unused non-empty reference skips the
deposit-limit check entirely (the conclusion holds for every `env`) and
reaches `recordVerifiedSlip` with a null user id, which throws
`'User ID is required'` before touching the store; the outer `catch` then
answers `server_error`/500 with no row inserted, no balance mutated and no
notification dispatched. -/
theorem anonymous_settlement_throws_before_store
    (env : Env) (amt : Option String) (file : FileData) (resp : EasySlipResponse)
    (d : SlipData) (nt : Bool) (ts now : Nat) (store : Store)
    (hsize : ¬ file.size > 10 * 1024 * 1024)
    (htype : strStartsWith file.type "image/" = true)
    (hdata : resp.data = some d)
    (hrecv : validateReceiver resp = true)
    (href : d.transRef ≠ "")
    (hused : checkSlipAlreadyUsed store d.transRef = false) :
    POST env none { slip := some file, amount := amt } (ProviderOutcome.ok resp)
        nt ts now store =
      { response := { httpStatus := 500, status := 500, message := "server_error", details := none }
        store := store, notifications := [] } ∧
    recordVerifiedSlip d.transRef d.amount (userIdOrNull none) now store =
      Except.error "User ID is required" := by
  constructor
  · simp only [POST, hdata, hsize, htype, hrecv, hused, if_false, if_true, not_true,
      not_false_iff, Bool.false_eq_true, ite_false, ite_true]
    rw [if_pos href]
    rfl
  · rfl

/-- Witness for C10: an anonymous submission of a valid, unused slip ends in
`server_error`/500 with the store untouched, and the settlement call throws
`'User ID is required'`. -/
theorem anonymous_settlement_throws_before_store_witness :
    POST aliceEnv none goodForm (ProviderOutcome.ok (goodResponse "REF3" 100))
        false 0 5 aliceStore =
      { response := { httpStatus := 500, status := 500, message := "server_error", details := none }
        store := aliceStore, notifications := [] } ∧
    recordVerifiedSlip "REF3" 100 (userIdOrNull none) 5 aliceStore =
      Except.error "User ID is required" :=
  anonymous_settlement_throws_before_store aliceEnv (some "100")
    { size := 1024, type := "image/png" } (goodResponse "REF3" 100)
    (goodSlipData "REF3" 100) false 0 5 aliceStore
    (by decide) (by decide) rfl (by decide) (by decide) rfl

end VerifySlip
